import Mathlib

/-!
Verification of the MailAgent repository's Inbox Synchronization & Reply
Dispatch Engine against its natural-language specification.

The Python sources under `app/` are shallowly embedded below:
* pure string manipulation (slicing, `strip`, `split`, `replace`, decimal
  rendering of integers) is translated to functions on `List Char` / `String`;
* stateful code (the in-memory `EMAIL_CACHE`, the credential store, the
  onboarding FSM session) is translated to explicit state-passing functions;
* calls to external collaborators (the OpenAI client, the IMAP/SMTP
  transport, the Telegram sink) are parameterised by oracle outcomes
  (`Except`/custom result types) so that both success and failure branches of
  the Python `try`/`except` code are represented;
* side effects are recorded as explicit event lists.
-/

namespace MailAgent

/-! ### Python string primitives -/

/-- Python `s.strip()` on a character list: drop whitespace from both ends. -/
def pyStripL (l : List Char) : List Char :=
  ((l.dropWhile Char.isWhitespace).reverse.dropWhile Char.isWhitespace).reverse

/-- Python `s.strip()`. -/
def pyStrip (s : String) : String := ⟨pyStripL s.data⟩

/-- Python slicing `s[:n]`. -/
def pyTake (s : String) (n : Nat) : String := ⟨s.data.take n⟩

/-- Python `s.split(sep)` for a one-character separator: split at every
occurrence, keeping empty segments (so the result is always nonempty). -/
def splitOnChar (c : Char) : List Char → List (List Char)
  | [] => [[]]
  | x :: xs =>
    if x = c then [] :: splitOnChar c xs
    else
      match splitOnChar c xs with
      | [] => [[x]]
      | h :: t => (x :: h) :: t

/-- Python `s.split(c)[-1]`: the segment after the last occurrence of `c`
(the whole string when `c` is absent). -/
def afterLast (c : Char) (l : List Char) : List Char :=
  (splitOnChar c l).getLastD []

/-- Python `s.split(c)[0]`: the segment before the first occurrence of `c`
(the whole string when `c` is absent). -/
def beforeFirst (c : Char) (l : List Char) : List Char :=
  (splitOnChar c l).headD []

/-- Fuel-driven decimal rendering (the fuel argument only serves structural
termination; `pyDecimal` always supplies enough). -/
def pyDecimalGo : Nat → Nat → List Char
  | 0, _ => []
  | fuel + 1, n =>
    if n < 10 then [Nat.digitChar n]
    else pyDecimalGo fuel (n / 10) ++ [Nat.digitChar (n % 10)]

/-- Python `str(n)` / f-string interpolation of a nonnegative integer:
its decimal digit characters. -/
def pyDecimal (n : Nat) : List Char := pyDecimalGo (n + 1) n

/-- `email_client.check_account_emails`, lines 213 to 214:
`local_id = f"{account_id}-{timestamp_ms}"`. -/
def local_id_of (account_id timestamp_ms : Nat) : String :=
  ⟨pyDecimal account_id ++ '-' :: pyDecimal timestamp_ms⟩

/-! ### Data model -/

/-- Priority tier of a classified message. -/
inductive Priority
  | high
  | medium
  | low
deriving DecidableEq

/-- Category of a classified message. -/
inductive Category
  | work
  | personal
  | newsletter
  | spam
  | important
deriving DecidableEq

/-- The result shape of the priority/category analysis:
`\x7b"priority": ..., "category": ..., "reason": ...\x7d`. -/
structure AnalysisOut where
  priority : Priority
  category : Category
  reason : String
deriving DecidableEq

/-- A raw message as parsed inside `check_account_emails` (lines 203 to 207):
decoded sender, decoded subject, receipt time (the source keeps the raw RFC
date header string; we model its time value as a natural number) and body
text. -/
structure FetchedMsg where
  from_addr : String
  subject : String
  date_raw : Nat
  body : String
deriving DecidableEq

/-- The `email_data` dictionary stored into `EMAIL_CACHE`
(`check_account_emails`, lines 232 to 245). The formatted date string and the
opaque `original_msg` handle are omitted: no claim mentions them. -/
structure EmailData where
  local_id : String
  account_id : Nat
  from_addr : String
  subject : String
  date_raw : Nat
  body : String
  summary : String
  priority : Priority
  category : Category
  priority_reason : String
deriving DecidableEq

/-- The in-memory message cache `EMAIL_CACHE : Dict[str, dict]`,
modelled as an association list keyed by local identifier. -/
abbrev Cache := List (String × EmailData)

/-- `email_client.get_email_from_cache`: `EMAIL_CACHE.get(local_id)`. -/
def get_email_from_cache (cache : Cache) (local_id : String) : Option EmailData :=
  (List.find? (fun p => p.fst == local_id) cache).map Prod.snd

/-- Python dictionary assignment `EMAIL_CACHE[local_id] = email_data`:
any previous binding of the key is replaced. -/
def cache_insert (cache : Cache) (k : String) (v : EmailData) : Cache :=
  List.filter (fun p => p.fst != k) cache ++ [(k, v)]

/-! ### Collaborator models (`ai_client.py`)

Each function's internal call to the OpenAI client is an oracle parameter of
type `Except String α`: `.ok` carries the collaborator's response content,
`.error` the text of the exception the Python code catches. -/

/-- `ai_client.summarize_email`: on success returns the response content
stripped; on any exception returns the literal error text prefixed by the
fixed message (line 51). -/
def summarize_email (res : Except String String) : String :=
  match res with
  | .ok content => pyStrip content
  | .error e => "Ошибка при создании резюме: " ++ e

/-- `ai_client.polish_reply`: on success the stripped response content; on any
exception the literal error text prefixed by the fixed message (line 87). -/
def polish_reply (res : Except String String) : String :=
  match res with
  | .ok content => pyStrip content
  | .error e => "Ошибка при обработке ответа: " ++ e

/-- Modelled from the spec: `analyze_email_priority_and_category` is imported
by `email_client.py` (line 16) but its definition is not among the source
files.  Spec section 4.2: on any collaborator error the classification
degrades to priority=medium, category=work and an empty rationale; on success
it returns the collaborator's structured result. -/
def analyze_email_priority_and_category (res : Except String AnalysisOut) : AnalysisOut :=
  match res with
  | .ok a => a
  | .error _ => ⟨Priority.medium, Category.work, ""⟩

/-- Modelled from the spec: the text of the message body that
`analyze_email_priority_and_category` passes to the collaborator.  Spec
section 4.2: the inbound message body passed to the collaborator must be
truncated to 2000 characters. -/
def analyze_collab_body (body : String) : String := pyTake body 2000

/-! ### Mailbox poller (`email_client.check_account_emails`) -/

/-- One observable side effect of processing a single fetched message inside
the poll loop of `check_account_emails` (lines 186 to 308). -/
inductive PollEvent
  | summarize_call (input : String)
  | analyze_call (input : String)
  | cache_ins (local_id : String)
  | mark_seen
  | notify (local_id : String)
deriving DecidableEq

/-- The body of the `for email_id_bytes in email_ids` loop of
`check_account_emails` for one message (lines 186 to 308).

Oracle parameters: `fetched` is the parsed message (`none` models
`status != "OK"`, which skips the message); `summaryRes` and `analysisRes`
are the two collaborator outcomes; `notifyPresent` models whether
`telegram_notify_func` was passed (`main.py` always passes
`send_notification`).  `now_ms` models `int(datetime.now().timestamp() * 1000)`.

Returns the emitted events, the updated `EMAIL_CACHE`, and the element
appended to `new_emails` (if any). -/
def check_account_emails_step (account_id now_ms : Nat) (cache : Cache)
    (fetched : Option FetchedMsg)
    (summaryRes : Except String String) (analysisRes : Except String AnalysisOut)
    (notifyPresent : Bool) : List PollEvent × Cache × Option EmailData :=
  match fetched with
  | none => ([], cache, none)
  | some m =>
    let summary := summarize_email summaryRes
    let lid := local_id_of account_id now_ms
    let analysis := analyze_email_priority_and_category analysisRes
    let email_data : EmailData :=
      { local_id := lid
        account_id := account_id
        from_addr := m.from_addr
        subject := m.subject
        date_raw := m.date_raw
        body := m.body
        summary := summary
        priority := analysis.priority
        category := analysis.category
        priority_reason := analysis.reason }
    let events :=
      [PollEvent.summarize_call (pyTake m.body 2000),
       PollEvent.analyze_call (analyze_collab_body m.body),
       PollEvent.cache_ins lid,
       PollEvent.mark_seen] ++
      (if notifyPresent then [PollEvent.notify lid] else [])
    (events, cache_insert cache lid email_data, some email_data)

/-! ### Reply dispatch path (`telegram_bot.handle_reply`, lines 2032 to 2070) -/

/-- One observable side effect of the reply path. -/
inductive ReplyEvent
  | answer (text : String)
  | polish_call (draft context : String)
  | smtp_send (account_id : Nat) (to_addr subject body : String)
deriving DecidableEq

/-- Outcome of the reply path. -/
inductive ReplyResult
  | not_found
  | sent
  | send_failed
deriving DecidableEq

/-- The reply-target derivation of `handle_reply` (lines 2048 to 2052):
`from_field.split("<")[-1].split(">")[0].strip()` when both angle brackets
occur in the sender field, otherwise `from_field.strip()`. -/
def reply_to_email (from_field : String) : String :=
  if '<' ∈ from_field.data ∧ '>' ∈ from_field.data then
    pyStrip ⟨beforeFirst '>' (afterLast '<' from_field.data)⟩
  else pyStrip from_field

/-- `handle_reply` from the cache lookup on (lines 2035 to 2070), after the
command text has been parsed into `local_id` and `draft_text`.  Oracles:
`polishRes` is the polishing collaborator outcome, `smtpOk`/`smtpMsg` the
result of `send_email_smtp`. -/
def handle_reply_step (cache : Cache) (local_id draft_text : String)
    (polishRes : Except String String) (smtpOk : Bool) (smtpMsg : String) :
    List ReplyEvent × ReplyResult :=
  match get_email_from_cache cache local_id with
  | none =>
    ([ReplyEvent.answer ("❌ Письмо с ID " ++ local_id ++ " не найдено в кэше.")],
     ReplyResult.not_found)
  | some ed =>
    let context :=
      "От: " ++ ed.from_addr ++ "\nТема: " ++ ed.subject ++ "\n\n" ++ pyTake ed.body 500
    let polished := polish_reply polishRes
    let to_email := reply_to_email ed.from_addr
    let subject := "Re: " ++ ed.subject
    ([ReplyEvent.polish_call draft_text context,
      ReplyEvent.smtp_send ed.account_id to_email subject polished,
      ReplyEvent.answer
        (if smtpOk then
          "✅ Ответ отправлен!\n\nПолучатель: " ++ to_email ++
            "\nТекст ответа:\n" ++ polished
         else "❌ Ошибка при отправке: " ++ smtpMsg)],
     if smtpOk then ReplyResult.sent else ReplyResult.send_failed)

/-! ### Credential store (`storage.py`) -/

/-- An account record as persisted by the Gmail-password onboarding branch
(`telegram_bot.py`, lines 1357 to 1363).  The OAuth2 variant is not needed by
any claim. -/
structure AccountData where
  imap_host : String
  imap_user : String
  imap_pass : String
  smtp_host : String
  smtp_port : Nat
deriving DecidableEq

/-- The persisted account mapping, keyed by stringified account id. -/
abbrev AccountsMap := List (String × AccountData)

/-- The three backing stores of `storage.py`: PostgreSQL (`none` when
unavailable), the `email_accounts.json` file (`none` when absent), and the
`EMAIL_ACCOUNTS_JSON` environment snapshot (read-only). -/
structure StoreState where
  pg : Option AccountsMap
  file : Option AccountsMap
  env : Option String

/-- `storage.save_accounts` (lines 158 to 199): an empty map is rejected
before any store is touched; otherwise the map is written to PostgreSQL when
available and the write succeeds (`pg_save_ok`), and to the file otherwise.
The environment variable is only printed, never written. -/
def save_accounts (accounts : AccountsMap) (pg_save_ok : Bool) (st : StoreState) :
    StoreState :=
  if List.isEmpty accounts then st
  else
    match st.pg, pg_save_ok with
    | some _, true => { st with pg := some accounts }
    | _, _ => { st with file := some accounts }

/-! ### Owner authorization (`telegram_bot.py`) -/

/-- `telegram_bot.get_owner_id` (lines 28 to 36): missing or unparsable
`OWNER_TELEGRAM_ID` yields 0. -/
def get_owner_id (env : Option String) : Int :=
  match env with
  | none => 0
  | some s => (s.toInt?).getD 0

/-- Whether the guarded handler was invoked or the command was rejected. -/
inductive GuardOutcome
  | handled
  | rejected
deriving DecidableEq

/-- The `check_owner` decorator (lines 107 to 138) around a handler whose
side effects are `handler_events`: when the configured owner id is 0 the
check is skipped and the handler runs; otherwise a non-owner sender receives
only the denial answer and the handler is never invoked. -/
def check_owner (owner_id user_id : Int) (handler_events : List ReplyEvent) :
    GuardOutcome × List ReplyEvent :=
  if owner_id = 0 then (GuardOutcome.handled, handler_events)
  else if user_id ≠ owner_id then
    (GuardOutcome.rejected, [ReplyEvent.answer "❌ У вас нет доступа к этому боту."])
  else (GuardOutcome.handled, handler_events)

/-! ### Gmail-password onboarding (`telegram_bot.handle_text_message`,
lines 1270 to 1374) -/

/-- Result of `email_client.test_imap_connection` (lines 411 to 450). -/
inductive TestResult
  | success
  | app_password_required
  | authentication_error
  | other (msg : String)
deriving DecidableEq

/-- The authentication-class test failures (`"app_password_required"` and
`"authentication_error"`). -/
def is_auth_class : TestResult → Bool
  | TestResult.app_password_required => true
  | TestResult.authentication_error => true
  | _ => false

/-- The FSM states of `SetupStates` (lines 42 to 50). -/
inductive SetupState
  | gmail_user
  | gmail_oauth_code
  | gmail_pass
  | custom_imap_host
  | custom_imap_user
  | custom_imap_pass
  | custom_smtp_host
  | custom_smtp_port
deriving DecidableEq

/-- The FSM session data relevant in state `gmail_pass`: the account being
onboarded, its email, and the `needs_app_password` flag. -/
structure GmailPassSession where
  account_id : Nat
  imap_user : String
  needs_app_password : Bool
deriving DecidableEq

/-- Outcome of one `gmail_pass` input: the FSM state afterwards (`none` means
the session was cleared), the `needs_app_password` flag afterwards, and the
account record persisted via `save_account` (if any). -/
structure GmailPassOut where
  state : Option SetupState
  needs_app_password : Bool
  saved : Option (Nat × AccountData)
deriving DecidableEq

/-- The `gmail_pass` branch of `handle_text_message` (lines 1270 to 1374).
The entered text is normalised by `strip().replace(" ", "").replace("-", "")`;
`test` is the outcome of the (single) `test_imap_connection` call performed on
this input.  A first authentication-class failure sets `needs_app_password`
and re-prompts in the same state; with the flag already set, any
authentication-class failure re-prompts in the same state; only a successful
test persists the account and clears the session. -/
def gmail_pass_step (s : GmailPassSession) (raw_text : String) (test : TestResult) :
    GmailPassOut :=
  let password : String :=
    ⟨(pyStripL raw_text.data).filter (fun c => c != ' ' && c != '-')⟩
  let saved_account : Nat × AccountData :=
    (s.account_id,
      { imap_host := "imap.gmail.com"
        imap_user := s.imap_user
        imap_pass := password
        smtp_host := "smtp.gmail.com"
        smtp_port := 587 })
  if s.needs_app_password = false then
    match test with
    | TestResult.app_password_required =>
      ⟨some SetupState.gmail_pass, true, none⟩
    | TestResult.authentication_error =>
      ⟨some SetupState.gmail_pass, true, none⟩
    | TestResult.other _ =>
      ⟨some SetupState.gmail_pass, false, none⟩
    | TestResult.success => ⟨none, false, some saved_account⟩
  else
    match test with
    | TestResult.app_password_required =>
      ⟨some SetupState.gmail_pass, true, none⟩
    | TestResult.authentication_error =>
      ⟨some SetupState.gmail_pass, true, none⟩
    | TestResult.other _ =>
      ⟨some SetupState.gmail_pass, true, none⟩
    | TestResult.success => ⟨none, false, some saved_account⟩

/-! ### Conversation threads -/

/-- Modelled from the spec: subject normalization used by the thread view
(`get_email_thread` is called by `telegram_bot.handle_thread`, line 1740, but
its definition is not among the source files).  Spec section 3: the
normalized subject is case-folded and reply-prefix stripped. -/
def normalize_chars : Nat → List Char → List Char
  | 0, l => pyStripL l
  | fuel + 1, l =>
    let t := pyStripL l
    if t.take 3 = ['r', 'e', ':'] then normalize_chars fuel (t.drop 3) else t

/-- Modelled from the spec: the normalized subject — lower-cased, whitespace
stripped, with every leading `"re:"` reply prefix removed. -/
def normalize_subject (s : String) : String :=
  ⟨normalize_chars s.data.length (s.data.map Char.toLower)⟩

/-- Modelled from the spec: `get_email_thread` (absent from the source files;
called by `handle_thread`).  Spec section 3: the thread of a message is the
set of cached messages whose normalized subject matches, ordered by receipt
time ascending. -/
def get_email_thread (ed : EmailData) (cached : List EmailData) : List EmailData :=
  (cached.filter
      (fun e => normalize_subject e.subject == normalize_subject ed.subject)).mergeSort
    (fun a b => decide (a.date_raw ≤ b.date_raw))

/-! ### Event classifiers -/

/-- Is the event a notification attempt? -/
def is_notify : PollEvent → Bool
  | PollEvent.notify _ => true
  | _ => false

/-- Is the event a mark-seen store call? -/
def is_mark_seen : PollEvent → Bool
  | PollEvent.mark_seen => true
  | _ => false

/-- Is the event a cache insertion? -/
def is_cache_ins : PollEvent → Bool
  | PollEvent.cache_ins _ => true
  | _ => false

/-- Is the event an SMTP transport call? -/
def is_smtp_send : ReplyEvent → Bool
  | ReplyEvent.smtp_send _ _ _ _ => true
  | _ => false

/-- Is the event a call to the polishing collaborator? -/
def is_polish_call : ReplyEvent → Bool
  | ReplyEvent.polish_call _ _ => true
  | _ => false

/-! ### Cache lemmas -/

lemma find?_filter_of_imp {α : Type} (p q : α → Bool) (l : List α)
    (h : ∀ a, p a = true → q a = true) :
    List.find? p (List.filter q l) = List.find? p l := by
  induction l with
  | nil => rfl
  | cons a l ih =>
    by_cases hq : q a = true
    · by_cases hp : p a = true
      · simp [List.filter, List.find?, hq, hp]
      · simp only [List.filter, hq, List.find?, hp, Bool.false_eq_true]
        simpa [List.find?, hp] using ih
    · have hp : p a = false := by
        rcases Bool.eq_false_or_eq_true (p a) with h1 | h1
        · exact absurd (h a h1) hq
        · exact h1
      simp only [List.filter, List.find?, hp]
      rw [Bool.not_eq_true] at hq
      simpa [List.filter, hq] using ih

lemma get_email_from_cache_insert_self (c : Cache) (k : String) (v : EmailData) :
    get_email_from_cache (cache_insert c k v) k = some v := by
  unfold get_email_from_cache cache_insert
  rw [List.find?_append]
  have hnone :
      List.find? (fun p => p.fst == k)
        (List.filter (fun p => p.fst != k) c) = none := by
    rw [List.find?_eq_none]
    intro x hx
    rcases List.mem_filter.mp hx with ⟨-, hne⟩
    simp only [bne_iff_ne, ne_eq] at hne
    simp [hne]
  rw [hnone]
  simp [List.find?]

lemma get_email_from_cache_insert_ne (c : Cache) (k k' : String) (v : EmailData)
    (h : k' ≠ k) :
    get_email_from_cache (cache_insert c k v) k' = get_email_from_cache c k' := by
  unfold get_email_from_cache cache_insert
  rw [List.find?_append]
  have hsingle : List.find? (fun p => p.fst == k') [(k, v)] = none := by
    have hbeq : (k == k') = false := beq_eq_false_iff_ne.mpr (Ne.symm h)
    simp [List.find?, hbeq]
  rw [hsingle, Option.or_none]
  rw [find?_filter_of_imp]
  intro a ha
  have : a.fst = k' := by simpa using ha
  simp [this, h]

/-! ### C6 — empty save is a no-op -/

/-- C6: saving the account mapping with an empty map is a no-op — the
persistent store (database, file, and environment snapshot) is left unchanged,
for every prior store state and every database-availability configuration. -/
theorem save_accounts_empty_is_noop (pg_save_ok : Bool) (st : StoreState) :
    save_accounts [] pg_save_ok st = st := rfl

/-! ### C4 — Gmail password escalation happens exactly once -/

/-- C4: in the Gmail-password onboarding state, an authentication-class
failure of the connection test leaves the session in state `gmail_pass` with
the `needs_app_password` sub-state flag set and persists nothing.  Applied
with `s.needs_app_password = false` this is the single escalation into the
elevated-credential sub-state; applied with the flag already set it shows a
second failure does not transition further: the session stays in the same
sub-state, open for another attempt, and nothing is persisted. -/
theorem gmail_pass_auth_failure_escalates_once (s : GmailPassSession)
    (raw_text : String) (test : TestResult) (h : is_auth_class test = true) :
    (gmail_pass_step s raw_text test).state = some SetupState.gmail_pass ∧
    (gmail_pass_step s raw_text test).needs_app_password = true ∧
    (gmail_pass_step s raw_text test).saved = none := by
  cases test with
  | success => exact absurd h (by simp [is_auth_class])
  | other msg => exact absurd h (by simp [is_auth_class])
  | app_password_required =>
    cases hs : s.needs_app_password <;> simp [gmail_pass_step, hs]
  | authentication_error =>
    cases hs : s.needs_app_password <;> simp [gmail_pass_step, hs]

/-- Witness for C4: concrete first and second failures. -/
theorem gmail_pass_auth_failure_escalates_once_witness :
    (is_auth_class TestResult.authentication_error = true ∧
      (gmail_pass_step ⟨1, "a@gmail.com", false⟩ "pw" TestResult.authentication_error).state =
          some SetupState.gmail_pass ∧
      (gmail_pass_step ⟨1, "a@gmail.com", false⟩ "pw" TestResult.authentication_error).needs_app_password =
          true ∧
      (gmail_pass_step ⟨1, "a@gmail.com", false⟩ "pw" TestResult.authentication_error).saved = none) ∧
    (is_auth_class TestResult.app_password_required = true ∧
      (gmail_pass_step ⟨1, "a@gmail.com", true⟩ "pw2" TestResult.app_password_required).state =
          some SetupState.gmail_pass ∧
      (gmail_pass_step ⟨1, "a@gmail.com", true⟩ "pw2" TestResult.app_password_required).needs_app_password =
          true ∧
      (gmail_pass_step ⟨1, "a@gmail.com", true⟩ "pw2" TestResult.app_password_required).saved = none) :=
  ⟨⟨by decide,
    gmail_pass_auth_failure_escalates_once ⟨1, "a@gmail.com", false⟩ "pw"
      TestResult.authentication_error (by decide)⟩,
   ⟨by decide,
    gmail_pass_auth_failure_escalates_once ⟨1, "a@gmail.com", true⟩ "pw2"
      TestResult.app_password_required (by decide)⟩⟩

/-! ### C5 — owner authorization -/

/-- C5 counterexample: the claim "for every inbound command from a user whose
identity differs from the configured owner identity, the command is rejected
with no side effects, for all configurations of the owner identity" is false.
With the owner identity unconfigured (`OWNER_TELEGRAM_ID` absent, so
`get_owner_id` yields 0), a sender with id 42 — different from the configured
identity — is not rejected: `check_owner` invokes the handler and its side
effects happen. -/
theorem check_owner_unconfigured_counterexample :
    (42 : Int) ≠ get_owner_id none ∧
    check_owner (get_owner_id none) 42
        [ReplyEvent.smtp_send 1 "a@b.c" "s" "b"] =
      (GuardOutcome.handled, [ReplyEvent.smtp_send 1 "a@b.c" "s" "b"]) := by
  exact ⟨by decide, by decide⟩

/-- C5 (amended): for every configuration in which an owner identity is
actually configured (nonzero), every inbound command from a different user is
rejected and produces no side effects beyond the denial answer — the guarded
handler is never invoked, so no state change, cache mutation, store write or
transport call happens.  When the owner identity is unconfigured (0) the
check is skipped. -/
theorem check_owner_rejects_nonowner (owner_id user_id : Int)
    (handler_events : List ReplyEvent)
    (h0 : owner_id ≠ 0) (h : user_id ≠ owner_id) :
    check_owner owner_id user_id handler_events =
      (GuardOutcome.rejected,
        [ReplyEvent.answer "❌ У вас нет доступа к этому боту."]) := by
  simp [check_owner, h0, h]

/-- Witness for C5 (amended): owner 7, sender 42. -/
theorem check_owner_rejects_nonowner_witness :
    (7 : Int) ≠ 0 ∧ (42 : Int) ≠ 7 ∧
    check_owner 7 42 [ReplyEvent.smtp_send 1 "a@b.c" "s" "b"] =
      (GuardOutcome.rejected,
        [ReplyEvent.answer "❌ У вас нет доступа к этому боту."]) :=
  ⟨by decide, by decide,
    check_owner_rejects_nonowner 7 42 [ReplyEvent.smtp_send 1 "a@b.c" "s" "b"]
      (by decide) (by decide)⟩

/-! ### C2 — reply on an unknown local identifier -/

/-- C2: for every local identifier that is not a key of the message cache,
the reply operation returns the user-facing not-found result and performs no
SMTP transport call and no polishing-collaborator call. -/
theorem handle_reply_unknown_id_no_transport (cache : Cache)
    (local_id draft_text : String) (polishRes : Except String String)
    (smtpOk : Bool) (smtpMsg : String)
    (h : get_email_from_cache cache local_id = none) :
    (handle_reply_step cache local_id draft_text polishRes smtpOk smtpMsg).2 =
        ReplyResult.not_found ∧
    ∀ ev ∈ (handle_reply_step cache local_id draft_text polishRes smtpOk smtpMsg).1,
      is_smtp_send ev = false ∧ is_polish_call ev = false := by
  rw [handle_reply_step, h]
  refine ⟨rfl, ?_⟩
  intro ev hev
  simp only [List.mem_singleton] at hev
  subst hev
  exact ⟨rfl, rfl⟩

/-- Witness for C2: the empty cache does not contain the id `1-99`. -/
theorem handle_reply_unknown_id_no_transport_witness :
    get_email_from_cache [] "1-99" = none ∧
    ((handle_reply_step [] "1-99" "hi" (Except.ok "p") true "").2 =
        ReplyResult.not_found ∧
      ∀ ev ∈ (handle_reply_step [] "1-99" "hi" (Except.ok "p") true "").1,
        is_smtp_send ev = false ∧ is_polish_call ev = false) :=
  ⟨by decide,
    handle_reply_unknown_id_no_transport [] "1-99" "hi" (Except.ok "p") true ""
      (by decide)⟩

/-! ### C1 — one notification, one mark-seen, mark-seen after caching -/

/-- C1: for every message successfully fetched and processed in a poll cycle
(and hence classified and cached; `main.py` always supplies the notification
function), exactly one notification is attempted, the message is marked seen
exactly once, the (single) cache insertion precedes the mark-seen store call,
and the message is present in the cache under its local identifier — so a
crash between fetch and seen-marking redelivers rather than loses it. -/
theorem poll_step_notifies_and_marks_seen_once (account_id now_ms : Nat)
    (cache : Cache) (m : FetchedMsg) (summaryRes : Except String String)
    (analysisRes : Except String AnalysisOut) :
    (((check_account_emails_step account_id now_ms cache (some m) summaryRes
        analysisRes true).1.filter is_notify).length = 1 ∧
      ((check_account_emails_step account_id now_ms cache (some m) summaryRes
        analysisRes true).1.filter is_mark_seen).length = 1 ∧
      ((check_account_emails_step account_id now_ms cache (some m) summaryRes
        analysisRes true).1.filter is_cache_ins).length = 1) ∧
    (check_account_emails_step account_id now_ms cache (some m) summaryRes
        analysisRes true).1.findIdx is_cache_ins <
      (check_account_emails_step account_id now_ms cache (some m) summaryRes
        analysisRes true).1.findIdx is_mark_seen ∧
    get_email_from_cache
(check_account_emails_step account_id now_ms cache (some m) summaryRes
          analysisRes true).2.1 (local_id_of account_id now_ms) ≠ none := by
  refine ⟨⟨?_, ?_, ?_⟩, ?_, ?_⟩ <;>
    simp [check_account_emails_step, is_notify, is_mark_seen, is_cache_ins,
      List.findIdx_cons, get_email_from_cache_insert_self]

/-! ### C3 — collaborator failure degrades but never drops -/

/-- C3: for every fetched message, when the classification collaborator fails
(both the summarization call and the priority/category call raise, with error
texts `e1` and `e2`), the cached message has priority=medium, category=work,
an empty rationale, and a summary carrying the literal error text; the
message is still inserted into the cache and a notification is still
attempted. -/
theorem classify_failure_degrades_and_still_notifies (account_id now_ms : Nat)
    (cache : Cache) (m : FetchedMsg) (e1 e2 : String) :
    ∃ ed : EmailData,
      (check_account_emails_step account_id now_ms cache (some m)
          (Except.error e1) (Except.error e2) true).2.2 = some ed ∧
      ed.priority = Priority.medium ∧
      ed.category = Category.work ∧
      ed.priority_reason = "" ∧
      ed.summary = "Ошибка при создании резюме: " ++ e1 ∧
      get_email_from_cache
          (check_account_emails_step account_id now_ms cache (some m)
            (Except.error e1) (Except.error e2) true).2.1 ed.local_id = some ed ∧
      ((check_account_emails_step account_id now_ms cache (some m)
          (Except.error e1) (Except.error e2) true).1.filter is_notify).length = 1 := by
  refine ⟨_, rfl, rfl, rfl, rfl, rfl, ?_, ?_⟩
  · exact get_email_from_cache_insert_self cache (local_id_of account_id now_ms) _
  · simp [check_account_emails_step, is_notify]

/-! ### C8 — collaborator inputs are truncated to 2000 characters -/

/-- C8: for every fetched message, the message body passed to the external
classification collaborator — in the summarization call and in the
priority/category call — has at most 2000 characters. -/
theorem collaborator_body_truncated (account_id now_ms : Nat) (cache : Cache)
    (fetched : Option FetchedMsg) (summaryRes : Except String String)
    (analysisRes : Except String AnalysisOut) (notifyPresent : Bool) :
    ∀ s : String,
      (PollEvent.summarize_call s ∈
          (check_account_emails_step account_id now_ms cache fetched summaryRes
            analysisRes notifyPresent).1 ∨
        PollEvent.analyze_call s ∈
          (check_account_emails_step account_id now_ms cache fetched summaryRes
            analysisRes notifyPresent).1) →
      s.length ≤ 2000 := by
  intro s hs
  cases fetched with
  | none => simp [check_account_emails_step] at hs
  | some m =>
    have hlen : ∀ b : String, (pyTake b 2000).length ≤ 2000 := by
      intro b
      simp only [pyTake, String.length, List.length_take]
      omega
    cases notifyPresent <;>
      rcases hs with h | h <;>
        simp only [check_account_emails_step, analyze_collab_body, if_true,
          if_false, List.mem_append, List.mem_cons, List.mem_singleton,
          List.not_mem_nil, or_false, PollEvent.summarize_call.injEq,
          PollEvent.analyze_call.injEq, reduceCtorEq, false_or] at h <;>
      (subst h; exact hlen m.body)

/-- Witness for C8: a concrete processed message whose summarize-call input
occurs among the events. -/
theorem collaborator_body_truncated_witness :
    (PollEvent.summarize_call (pyTake "hello" 2000) ∈
        (check_account_emails_step 1 2 [] (some ⟨"f", "s", 3, "hello"⟩)
          (Except.ok "ok") (Except.ok ⟨Priority.high, Category.spam, "r"⟩) true).1 ∨
      PollEvent.analyze_call (pyTake "hello" 2000) ∈
        (check_account_emails_step 1 2 [] (some ⟨"f", "s", 3, "hello"⟩)
          (Except.ok "ok") (Except.ok ⟨Priority.high, Category.spam, "r"⟩) true).1) ∧
    (pyTake "hello" 2000).length ≤ 2000 :=
  ⟨Or.inl (by decide),
    collaborator_body_truncated 1 2 [] (some ⟨"f", "s", 3, "hello"⟩)
      (Except.ok "ok") (Except.ok ⟨Priority.high, Category.spam, "r"⟩) true
      (pyTake "hello" 2000) (Or.inl (by decide))⟩

/-! ### C9 — the thread view -/

/-- C9: for every cached message, the thread view contains exactly the cached
messages whose normalized subject (case-folded, reply-prefix-stripped)
matches that message's normalized subject, and it is ordered by receipt time
in non-decreasing order. -/
theorem get_email_thread_members_and_order (ed : EmailData)
    (cached : List EmailData) :
    (∀ e : EmailData,
        e ∈ get_email_thread ed cached ↔
          e ∈ cached ∧ normalize_subject e.subject = normalize_subject ed.subject) ∧
    (get_email_thread ed cached).Pairwise
      (fun a b => a.date_raw ≤ b.date_raw) := by
  constructor
  · intro e
    rw [get_email_thread, List.mem_mergeSort, List.mem_filter]
    simp only [beq_iff_eq]
  · have hs :
        (get_email_thread ed cached).Pairwise
          (fun a b => decide (a.date_raw ≤ b.date_raw) = true) := by
      apply List.sorted_mergeSort
      · intro a b c hab hbc
        simp only [decide_eq_true_eq] at hab hbc ⊢
        omega
      · intro a b
        rcases Nat.le_total a.date_raw b.date_raw with h | h <;>
          simp [h]
    exact hs.imp (fun hab => by simpa using hab)

/-! ### Splitting lemmas for the reply-target derivation -/

lemma splitOnChar_ne_nil (c : Char) : ∀ l : List Char, splitOnChar c l ≠ []
  | [] => by simp [splitOnChar]
  | x :: xs => by
    by_cases hx : x = c
    · simp [splitOnChar, hx]
    · cases hS : splitOnChar c xs with
      | nil => exact absurd hS (splitOnChar_ne_nil c xs)
      | cons h t => simp [splitOnChar, hx, hS]

lemma splitOnChar_no_sep (c : Char) (l : List Char) (h : c ∉ l) :
    splitOnChar c l = [l] := by
  induction l with
  | nil => rfl
  | cons x xs ih =>
    have hx : ¬x = c := fun hxc => h (hxc ▸ List.mem_cons_self x xs)
    have hxs : c ∉ xs := fun hc => h (List.mem_cons_of_mem x hc)
    simp [splitOnChar, hx, ih hxs]

lemma beforeFirst_cons_self (c : Char) (xs : List Char) :
    beforeFirst c (c :: xs) = [] := by
  simp [beforeFirst, splitOnChar]

lemma beforeFirst_cons_ne (c x : Char) (xs : List Char) (hx : x ≠ c) :
    beforeFirst c (x :: xs) = x :: beforeFirst c xs := by
  cases hS : splitOnChar c xs with
  | nil => exact absurd hS (splitOnChar_ne_nil c xs)
  | cons h t => simp [beforeFirst, splitOnChar, hx, hS]

lemma beforeFirst_append_self (c : Char) (l₁ l₂ : List Char) (h : c ∉ l₁) :
    beforeFirst c (l₁ ++ c :: l₂) = l₁ := by
  induction l₁ with
  | nil => simpa using beforeFirst_cons_self c l₂
  | cons a l₁ ih =>
    have ha : a ≠ c := fun hac => h (hac ▸ List.mem_cons_self a l₁)
    have hl : c ∉ l₁ := fun hc => h (List.mem_cons_of_mem a hc)
    rw [List.cons_append, beforeFirst_cons_ne c a _ ha, ih hl]

lemma splitOnChar_length_of_mem (c : Char) : ∀ l : List Char, c ∈ l →
    2 ≤ (splitOnChar c l).length
  | [], h => absurd h (List.not_mem_nil c)
  | x :: xs, h => by
    by_cases hx : x = c
    · have heq : splitOnChar c (x :: xs) = [] :: splitOnChar c xs := by
        simp [splitOnChar, hx]
      rw [heq, List.length_cons]
      have hpos := List.length_pos.mpr (splitOnChar_ne_nil c xs)
      omega
    · have hmem : c ∈ xs := by
        rcases List.mem_cons.mp h with h1 | h1
        · exact absurd h1.symm hx
        · exact h1
      have hlen := splitOnChar_length_of_mem c xs hmem
      cases hS : splitOnChar c xs with
      | nil => exact absurd hS (splitOnChar_ne_nil c xs)
      | cons h' t =>
        have heq : splitOnChar c (x :: xs) = (x :: h') :: t := by
          simp [splitOnChar, hx, hS]
        rw [hS] at hlen
        rw [heq, List.length_cons]
        simp only [List.length_cons] at hlen
        omega

lemma getLastD_default_irrel {α : Type} (l : List α) (h : l ≠ [])
    (d₁ d₂ : α) : l.getLastD d₁ = l.getLastD d₂ := by
  cases l with
  | nil => exact absurd rfl h
  | cons a l => rw [List.getLastD_cons, List.getLastD_cons]

lemma afterLast_cons_mem (c x : Char) (xs : List Char) (hmem : c ∈ xs) :
    afterLast c (x :: xs) = afterLast c xs := by
  by_cases hx : x = c
  · subst hx
    cases hS : splitOnChar x xs with
    | nil => exact absurd hS (splitOnChar_ne_nil x xs)
    | cons h' t =>
      simp [afterLast, splitOnChar, hS, List.getLastD_cons]
  · cases hS : splitOnChar c xs with
    | nil => exact absurd hS (splitOnChar_ne_nil c xs)
    | cons h' t =>
      have ht : t ≠ [] := by
        have hlen := splitOnChar_length_of_mem c xs hmem
        rw [hS] at hlen
        cases t with
        | nil => simp at hlen
        | cons _ _ => simp
      simp only [afterLast, splitOnChar, if_neg hx, hS, List.getLastD_cons]
      exact getLastD_default_irrel t ht _ _

lemma afterLast_append (c : Char) (l₂ : List Char) (h : c ∉ l₂) :
    ∀ l₁ : List Char, afterLast c (l₁ ++ c :: l₂) = l₂ := by
  intro l₁
  induction l₁ with
  | nil =>
    simp [afterLast, splitOnChar, splitOnChar_no_sep c l₂ h, List.getLastD_cons]
  | cons a l₁ ih =>
    rw [List.cons_append,
      afterLast_cons_mem c a _ (List.mem_append_right l₁ (List.mem_cons_self c l₂)),
      ih]

/-! ### C7 — reply target and subject derivation -/

/-- C7: the reply operation derives the submission target from the cached
sender field by preferring the angle-bracket address (for every sender of the
form `name<addr>` with a bracket-free address, the target is the stripped
address), falling back to the stripped raw sender string when either bracket
is missing; for every cached message the emitted SMTP call uses that derived
target and the subject `"Re: "` prefixed to the cached subject.  In
particular for sender `"Jane <jane@x.com>"` the target is `jane@x.com`, and
for subject `"Status"` the outgoing subject is `"Re: Status"`. -/
theorem reply_target_and_subject :
    (∀ name addr : String, '<' ∉ addr.data → '>' ∉ addr.data →
      reply_to_email (name ++ "<" ++ addr ++ ">") = pyStrip addr) ∧
    (∀ from_field : String, ('<' ∉ from_field.data ∨ '>' ∉ from_field.data) →
      reply_to_email from_field = pyStrip from_field) ∧
    (∀ (cache : Cache) (lid draft : String) (polishRes : Except String String)
        (smtpOk : Bool) (smtpMsg : String) (ed : EmailData),
      get_email_from_cache cache lid = some ed →
      ReplyEvent.smtp_send ed.account_id (reply_to_email ed.from_addr)
          ("Re: " ++ ed.subject) (polish_reply polishRes) ∈
        (handle_reply_step cache lid draft polishRes smtpOk smtpMsg).1) ∧
    reply_to_email "Jane <jane@x.com>" = "jane@x.com" ∧
    ("Re: " : String) ++ "Status" = "Re: Status" := by
  refine ⟨?_, ?_, ?_, by decide, by decide⟩
  · intro name addr h1 h2
    have hdata : (name ++ "<" ++ addr ++ ">").data =
        name.data ++ '<' :: (addr.data ++ ['>']) := by
      simp [String.data_append]
    have hmem : '<' ∈ (name ++ "<" ++ addr ++ ">").data ∧
        '>' ∈ (name ++ "<" ++ addr ++ ">").data := by
      rw [hdata]
      constructor
      · exact List.mem_append_right _ (List.mem_cons_self _ _)
      · refine List.mem_append_right _ (List.mem_cons_of_mem _ ?_)
        exact List.mem_append_right _ (List.mem_cons_self _ _)
    rw [reply_to_email, if_pos hmem, hdata]
    have hnot : '<' ∉ addr.data ++ ['>'] := by
      intro hc
      rcases List.mem_append.mp hc with hc | hc
      · exact h1 hc
      · simp at hc
    rw [afterLast_append '<' (addr.data ++ ['>']) hnot name.data]
    have heq : addr.data ++ ['>'] = addr.data ++ '>' :: [] := rfl
    rw [heq, beforeFirst_append_self '>' addr.data [] h2]
  · intro from_field h
    rw [reply_to_email, if_neg]
    intro hcontra
    rcases h with h | h
    · exact h hcontra.1
    · exact h hcontra.2
  · intro cache lid draft polishRes smtpOk smtpMsg ed hfound
    rw [handle_reply_step, hfound]
    exact List.mem_cons_of_mem _ (List.mem_cons_self _ _)

/-- Witness for C7: the scenario sender and subject. -/
theorem reply_target_and_subject_witness :
    ('<' ∉ ("jane@x.com" : String).data ∧ '>' ∉ ("jane@x.com" : String).data) ∧
    reply_to_email ("Jane " ++ "<" ++ "jane@x.com" ++ ">") = pyStrip "jane@x.com" :=
  ⟨⟨by decide, by decide⟩,
    reply_target_and_subject.1 "Jane " "jane@x.com" (by decide) (by decide)⟩

/-! ### Decimal rendering lemmas for local identifiers -/

lemma pyDecimalGo_fuel_irrel : ∀ f f' n : Nat, n < f → n < f' →
    pyDecimalGo f n = pyDecimalGo f' n := by
  intro f
  induction f with
  | zero => intro f' n h; omega
  | succ f ih =>
    intro f' n hf hf'
    cases f' with
    | zero => omega
    | succ f' =>
      simp only [pyDecimalGo]
      by_cases h10 : n < 10
      · simp [h10]
      · have hd : n / 10 < n := Nat.div_lt_self (by omega) (by decide)
        rw [if_neg h10, if_neg h10, ih f' (n / 10) (by omega) (by omega)]

lemma pyDecimal_eq (n : Nat) :
    pyDecimal n =
      if n < 10 then [Nat.digitChar n]
      else pyDecimal (n / 10) ++ [Nat.digitChar (n % 10)] := by
  by_cases h10 : n < 10
  · simp [pyDecimal, pyDecimalGo, h10]
  · have hd : n / 10 < n := Nat.div_lt_self (by omega) (by decide)
    show (if n < 10 then [Nat.digitChar n]
        else pyDecimalGo n (n / 10) ++ [Nat.digitChar (n % 10)]) = _
    rw [if_neg h10, if_neg h10,
      pyDecimalGo_fuel_irrel n (n / 10 + 1) (n / 10) (by omega) (by omega)]
    rfl

lemma digitChar_toNat (d : Nat) (h : d < 10) : (Nat.digitChar d).toNat = 48 + d := by
  interval_cases d <;> decide

lemma digitChar_ne_dash (d : Nat) (h : d < 10) : Nat.digitChar d ≠ '-' := by
  interval_cases d <;> decide

lemma dash_not_mem_pyDecimal (n : Nat) : '-' ∉ pyDecimal n := by
  induction n using Nat.strong_induction_on with
  | _ n ih =>
    rw [pyDecimal_eq]
    split
    · next h =>
      intro hc
      simp only [List.mem_singleton] at hc
      exact digitChar_ne_dash n h hc.symm
    · next h =>
      intro hc
      rcases List.mem_append.mp hc with hc | hc
      · exact ih (n / 10) (Nat.div_lt_self (by omega) (by decide)) hc
      · simp only [List.mem_singleton] at hc
        exact digitChar_ne_dash (n % 10) (Nat.mod_lt n (by decide)) hc.symm

/-- Recovering the numeric value from decimal digit characters. -/
def decVal (a : Nat) (c : Char) : Nat := 10 * a + (c.toNat - 48)

lemma foldl_decVal_pyDecimal (n : Nat) : ∀ a : Nat,
    List.foldl decVal a (pyDecimal n) = a * 10 ^ (pyDecimal n).length + n := by
  induction n using Nat.strong_induction_on with
  | _ n ih =>
    intro a
    rw [pyDecimal_eq]
    split
    · next h =>
      simp only [List.foldl_cons, List.foldl_nil, List.length_cons,
        List.length_nil, decVal, digitChar_toNat n h, pow_one]
      omega
    · next h =>
      have hd : n / 10 < n := Nat.div_lt_self (by omega) (by decide)
      rw [List.foldl_append, ih (n / 10) hd a]
      simp only [List.foldl_cons, List.foldl_nil, decVal,
        digitChar_toNat (n % 10) (Nat.mod_lt n (by decide)),
        List.length_append, List.length_cons, List.length_nil]
      have hdm : 10 * (n / 10) + n % 10 = n := Nat.div_add_mod n 10
      rw [pow_succ, ← mul_assoc]
      set r := a * 10 ^ (pyDecimal (n / 10)).length with hr
      omega

lemma pyDecimal_injective {m n : Nat} (h : pyDecimal m = pyDecimal n) : m = n := by
  have hm := foldl_decVal_pyDecimal m 0
  have hn := foldl_decVal_pyDecimal n 0
  rw [h] at hm
  simp only [Nat.zero_mul, Nat.zero_add] at hm hn
  exact hm.symm.trans hn

lemma append_dash_inj : ∀ x u y v : List Char, '-' ∉ x → '-' ∉ u →
    x ++ '-' :: y = u ++ '-' :: v → x = u ∧ y = v
  | [], [], y, v, _, _, h => ⟨rfl, by simpa using h⟩
  | [], b :: u', y, v, _, hu, h => by
    rw [List.nil_append, List.cons_append] at h
    injection h with h1 h2
    exact absurd (show '-' ∈ b :: u' by rw [← h1]; exact List.mem_cons_self _ _) hu
  | a :: x', [], y, v, hx, _, h => by
    rw [List.cons_append, List.nil_append] at h
    injection h with h1 h2
    exact absurd (show '-' ∈ a :: x' by rw [h1]; exact List.mem_cons_self _ _) hx
  | a :: x', b :: u', y, v, hx, hu, h => by
    rw [List.cons_append, List.cons_append] at h
    injection h with h1 h2
    have hx' : '-' ∉ x' := fun hc => hx (List.mem_cons_of_mem _ hc)
    have hu' : '-' ∉ u' := fun hc => hu (List.mem_cons_of_mem _ hc)
    obtain ⟨hxe, hye⟩ := append_dash_inj x' u' y v hx' hu' h2
    exact ⟨by rw [h1, hxe], hye⟩

/-! ### C10 — uniqueness of local identifiers -/

/-- C10 counterexample: the claim that local identifiers of distinct cached
messages are always distinct is false.  The identifier is derived from the
account id and the current millisecond clock, so two distinct messages of the
same account processed in the same millisecond receive the same identifier,
and the second cache insertion overwrites the first: after both insertions
the cache holds one entry and the first message's record is gone. -/
theorem local_id_collision_counterexample :
    (let m1 : FetchedMsg := ⟨"x@y.z", "a", 1, "b1"⟩
     let m2 : FetchedMsg := ⟨"x@y.z", "b", 2, "b2"⟩
     let out1 := check_account_emails_step 1 5 [] (some m1) (Except.ok "s")
       (Except.ok ⟨Priority.high, Category.work, "r"⟩) true
     let out2 := check_account_emails_step 1 5 out1.2.1 (some m2) (Except.ok "s")
       (Except.ok ⟨Priority.high, Category.work, "r"⟩) true
     m1 ≠ m2 ∧
       Option.map EmailData.local_id out1.2.2 = Option.map EmailData.local_id out2.2.2 ∧
       out2.2.1.length = 1 ∧
       get_email_from_cache out2.2.1 (local_id_of 1 5) ≠ out1.2.2) := by
  decide

/-- C10 (amended): local identifiers derived from distinct
(account id, timestamp-in-milliseconds) pairs are distinct, and inserting a
message under such a fresh identifier never overwrites an existing cache
entry stored under the other identifier. -/
theorem local_id_distinct_pairs (a₁ t₁ a₂ t₂ : Nat) (c : Cache) (v : EmailData)
    (h : ¬(a₁ = a₂ ∧ t₁ = t₂)) :
    local_id_of a₁ t₁ ≠ local_id_of a₂ t₂ ∧
    get_email_from_cache (cache_insert c (local_id_of a₂ t₂) v)
        (local_id_of a₁ t₁) = get_email_from_cache c (local_id_of a₁ t₁) := by
  have hne : local_id_of a₁ t₁ ≠ local_id_of a₂ t₂ := by
    intro he
    apply h
    have hdata : pyDecimal a₁ ++ '-' :: pyDecimal t₁ =
        pyDecimal a₂ ++ '-' :: pyDecimal t₂ := congrArg String.data he
    obtain ⟨h1, h2⟩ := append_dash_inj _ _ _ _ (dash_not_mem_pyDecimal a₁)
      (dash_not_mem_pyDecimal a₂) hdata
    exact ⟨pyDecimal_injective h1, pyDecimal_injective h2⟩
  exact ⟨hne, get_email_from_cache_insert_ne c _ _ v hne⟩

/-- Witness for the amended C10: account 1 at two different milliseconds. -/
theorem local_id_distinct_pairs_witness :
    ¬((1 : Nat) = 1 ∧ (5 : Nat) = 6) ∧
    (local_id_of 1 5 ≠ local_id_of 1 6 ∧
      get_email_from_cache
          (cache_insert [] (local_id_of 1 6)
            ⟨"", 0, "", "", 0, "", "", Priority.medium, Category.work, ""⟩)
          (local_id_of 1 5) = get_email_from_cache [] (local_id_of 1 5)) :=
  ⟨by decide,
    local_id_distinct_pairs 1 5 1 6 []
      ⟨"", 0, "", "", 0, "", "", Priority.medium, Category.work, ""⟩ (by decide)⟩

end MailAgent
